import Mathlib

/-!
Verification of the hierarchical reporting subsystem of FastChain
(`src/fastchain/reporter.py`): the `Severity` vocabulary, `Failure` and
`FailureData` records, the default `FailureLogger` handler, the internal
`_Reporter` hierarchy with its name/details/severity resolution and its
`report` / scoped-capture (`__enter__`/`__exit__`) operations, and the
alternate `Reporter` variant with lazy self-naming.

Python dictionaries are embedded as association lists with first-match
lookup; `{**a, **b}` is embedded by `pyMerge`, which keeps `a`'s key order
(values overridden by `b` where present) followed by `b`'s keys absent
from `a`, exactly as Python dict-literal unpacking behaves.
-/

namespace FastChain

/-- Severity enumeration from `reporter.py` (`IntEnum`: OPTIONAL = -1,
NORMAL = 0, REQUIRED = 1). -/
inductive Severity where
  | OPTIONAL
  | NORMAL
  | REQUIRED
  deriving DecidableEq, Repr

/-- Integer value of each `Severity` member (IntEnum values). -/
def Severity.toInt : Severity → Int
  | .OPTIONAL => -1
  | .NORMAL => 0
  | .REQUIRED => 1

/-- Detail values: the Python code treats detail payloads as opaque `Any`;
we embed the value kinds the claims exercise (strings, integers, and
`Severity` members, the latter because a `severity=` keyword argument to
`report` lands inside the details dict). -/
inductive Val where
  | vstr (s : String)
  | vint (n : Int)
  | vsev (s : Severity)
  deriving DecidableEq, Repr

/-- A Python `dict[str, Any]` embedded as an association list (insertion
order preserved, no duplicate keys arise from the operations we model). -/
abbrev Dict := List (String × Val)

/-- First-match lookup, the embedding of `d[k]` / `k in d`. -/
def dget : Dict → String → Option Val
  | [], _ => none
  | (k₂, v) :: rest, k => if k₂ = k then some v else dget rest k

/-- In-place update `d[k] = v`: replaces the value at the first occurrence
of `k`, or appends `(k, v)` when `k` is absent (Python dict assignment). -/
def dset : Dict → String → Val → Dict
  | [], k, v => [(k, v)]
  | (k₂, v₂) :: rest, k, v =>
    if k₂ = k then (k, v) :: rest else (k₂, v₂) :: dset rest k v

/-- Value override used by `pyMerge`: an entry of the left dict keeps its
key but takes the right dict's value when the right dict has that key. -/
def overrideBy (b : Dict) (kv : String × Val) : String × Val :=
  match dget b kv.1 with
  | some v => (kv.1, v)
  | none => kv

/-- Predicate used by `pyMerge`: the entry's key is absent from `a`. -/
def absentIn (a : Dict) (kv : String × Val) : Bool :=
  (dget a kv.1).isNone

/-- Embedding of Python `{**a, **b}`: `a`'s entries with values overridden
by `b` where `b` has the key, followed by `b`'s entries whose keys are
absent from `a`. -/
def pyMerge (a b : Dict) : Dict :=
  a.map (overrideBy b) ++ b.filter (absentIn a)

theorem dget_append (l₁ l₂ : Dict) (k : String) :
    dget (l₁ ++ l₂) k = (dget l₁ k).orElse fun _ => dget l₂ k := by
  induction l₁ with
  | nil => rfl
  | cons kv rest ih =>
    show dget (kv :: (rest ++ l₂)) k = _
    cases kv with
    | mk k₂ v =>
      by_cases h : k₂ = k
      · simp [dget, h, Option.orElse]
      · simp [dget, h, ih]

theorem dget_mapOverride (a b : Dict) (k : String) :
    dget (a.map (overrideBy b)) k =
    match dget a k with
    | some v => some ((dget b k).getD v)
    | none => none := by
  induction a with
  | nil => rfl
  | cons kv rest ih =>
    cases kv with
    | mk k₂ v₂ =>
      by_cases h : k₂ = k
      · subst h
        cases hb : dget b k₂ <;> simp [dget, overrideBy, List.map, hb]
      · cases hb : dget b k₂ <;> simp [dget, overrideBy, List.map, hb, h, ih]

theorem dget_filterAbsent (a b : Dict) (k : String) :
    dget (b.filter (absentIn a)) k =
    if (dget a k).isNone then dget b k else none := by
  induction b with
  | nil => cases ha : dget a k <;> simp [dget, List.filter]
  | cons kv rest ih =>
    cases kv with
    | mk k₂ v₂ =>
      rw [List.filter_cons]
      by_cases h : k₂ = k
      · subst h
        cases ha : dget a k₂ <;> simp [absentIn, dget, ha, ih]
      · cases hcond : absentIn a (k₂, v₂) <;> simp [dget, h, ih, hcond]

/-- Lookup law of the Python merge: the right operand wins on conflict and
left keys stay visible. -/
theorem dget_pyMerge (a b : Dict) (k : String) :
    dget (pyMerge a b) k = (dget b k).orElse fun _ => dget a k := by
  unfold pyMerge
  rw [dget_append, dget_mapOverride, dget_filterAbsent]
  cases ha : dget a k <;> cases hb : dget b k <;>
    simp [Option.orElse, Option.getD, Option.isNone]

/-- Modelled from the spec: `pascal_to_snake`, imported in `reporter.py`
from `fastchain._util`, which is absent from the sources; per the spec it
turns a fault's class name into the synthesized `error_type` detail
"naming the fault's kind", i.e. a PascalCase class name rendered in
snake_case. -/
def pascalToSnakeAux : List Char → Bool → List Char
  | [], _ => []
  | c :: rest, first =>
    if c.isUpper then
      (if first then [c.toLower] else ['_', c.toLower]) ++
        pascalToSnakeAux rest false
    else c :: pascalToSnakeAux rest false

/-- Modelled from the spec: wrapper of `pascalToSnakeAux` on strings. -/
def pascalToSnake (s : String) : String :=
  ⟨pascalToSnakeAux s.data true⟩

/-- Ordinary exception values (`isinstance(-, Exception)` holds): either a
`fastchain.Failure` carrying a description and details, or a generic
exception with its class name and message (`str(exc)`). -/
inductive Exc where
  | failure (description : String) (details : Dict)
  | generic (typeName : String) (msg : String)
  deriving DecidableEq, Repr

/-- The `str | Exception` argument accepted by `_Reporter.report`. -/
inductive ReportArg where
  | exc (e : Exc)
  | str (s : String)
  deriving DecidableEq, Repr

/-- Description of an exception: a `Failure` carries its `description`
attribute; for a generic exception `str(exc)` yields its message. -/
def Exc.describe : Exc → String
  | .failure d _ => d
  | .generic _ msg => msg

/-- Embedding of the frozen dataclass `FailureData`. The dataclass
annotations say `source: str` and `severity: Severity`, but
`_Reporter.report` passes `self.name` (which can be `None`) and
`self.severity` (which can be `None`), so both fields are embedded as
options. `datetime` is the capture-time clock value. -/
structure FailureData where
  source : Option String
  description : String
  datetime : Nat
  severity : Option Severity
  details : Dict
  deriving DecidableEq, Repr

/-- Embedding of `_Reporter`: `_name`, `_severity`, `_details`, `_handler`
are the local fields; `_root` is either absent (the `root` constructor) or
a reference to the parent (the `child` constructor). The handler is
embedded by its presence (`Option Unit`), since `report` only tests
`handler is None` and otherwise invokes it with the built `FailureData`. -/
inductive RepC where
  | root (name : Option String) (sev : Option Severity) (details : Dict)
      (handler : Option Unit)
  | child (name : Option String) (sev : Option Severity) (details : Dict)
      (handler : Option Unit) (parent : RepC)
  deriving DecidableEq, Repr

/-- The local `_name` field. -/
def RepC.localName : RepC → Option String
  | .root n _ _ _ => n
  | .child n _ _ _ _ => n

/-- The local `_severity` field. -/
def RepC.localSev : RepC → Option Severity
  | .root _ s _ _ => s
  | .child _ s _ _ _ => s

/-- The local `_details` field. -/
def RepC.localDetails : RepC → Dict
  | .root _ _ d _ => d
  | .child _ _ d _ _ => d

/-- The local `_handler` field. -/
def RepC.localHandler : RepC → Option Unit
  | .root _ _ _ h => h
  | .child _ _ _ h _ => h

/-- The `_root` field. -/
def RepC.parent : RepC → Option RepC
  | .root _ _ _ _ => none
  | .child _ _ _ _ p => some p

/-- Rendering of `self._name` inside the f-string
`f'{root_name}.{self._name}'`: Python formats `None` as `"None"`. -/
def fmtOptStr : Option String → String
  | some s => s
  | none => "None"

/-- Embedding of the `_Reporter.name` property: if the reporter has a root
whose resolved name is truthy (not `None`, not empty), the result is
`f'{root_name}.{self._name}'`; otherwise the local `_name`. -/
def RepC.resolvedName : RepC → Option String
  | .root n _ _ _ => n
  | .child n _ _ _ p =>
    match p.resolvedName with
    | some rn => if rn = "" then n else some (rn ++ "." ++ fmtOptStr n)
    | none => n

/-- Embedding of the `_Reporter.details` property: the parent's resolved
details overlaid by the local details (`{**root.details, **self._details}`);
a root returns a copy of its local details. -/
def RepC.resolvedDetails : RepC → Dict
  | .root _ _ d _ => d
  | .child _ _ d _ p => pyMerge p.resolvedDetails d

/-- Embedding of the `_Reporter.severity` property: the local value unless
it is `None` and a root exists, in which case the root's resolved
severity; a root with `None` resolves to `None`. -/
def RepC.resolvedSeverity : RepC → Option Severity
  | .root _ s _ _ => s
  | .child _ s _ _ p =>
    match s with
    | some s₂ => some s₂
    | none => p.resolvedSeverity

/-- Embedding of `_Reporter.report(arg, **details)`. Note the runtime
signature has no `severity` parameter (only the `@overload` stubs declare
one), so a `severity=` keyword lands inside `details` (`cs` here). The
result is the `FailureData` handed to the handler, or `none` on the silent
path (`severity is OPTIONAL or handler is None`, the handler being the
local `self._handler`). -/
def RepC.report (r : RepC) (arg : ReportArg) (cs : Dict) (now : Nat) :
    Option FailureData :=
  let severity := r.resolvedSeverity
  let handler := r.localHandler
  if severity = some .OPTIONAL ∨ handler = none then none
  else
    let descAndDetails :=
      match arg with
      | .exc (.failure d fdet) =>
        (d, pyMerge (pyMerge r.resolvedDetails cs) fdet)
      | .exc (.generic tn msg) =>
        (msg, pyMerge (pyMerge r.resolvedDetails cs)
          [("error_type", Val.vstr (pascalToSnake tn))])
      | .str s => (s, pyMerge r.resolvedDetails cs)
    some
      { source := r.resolvedName
        description := descAndDetails.1
        datetime := now
        severity := severity
        details := descAndDetails.2 }

/-- Exceptions crossing the `__exit__` boundary: either an ordinary
`Exception` or a `BaseException` that is not an `Exception` (a
process-level interrupt such as `KeyboardInterrupt`). -/
inductive BaseExc where
  | exc (e : Exc)
  | interrupt (name : String)
  deriving DecidableEq, Repr

/-- Embedding of `_Reporter.__exit__`: the first component is the returned
bool (`True` suppresses the exception), the second the list of `report`
invocations made (argument and keyword details), the third the dispatches
those invocations produced. On an ordinary exception `__exit__` calls
`self.report(exc_val)` — one call, no extra keywords, hence no severity
override — and returns `True`; on a non-`Exception` `BaseException` it
returns `False` with no report call. -/
def RepC.exitScope (r : RepC) (e : Option BaseExc) (now : Nat) :
    Bool × List (ReportArg × Dict) × List FailureData :=
  match e with
  | none => (true, [], [])
  | some (.exc ex) =>
    (true, [(.exc ex, [])], (r.report (.exc ex) [] now).toList)
  | some (.interrupt _) => (false, [], [])

/-- A Python value passed as the `name: Any` argument of the alternate
`Reporter` variant; the kinds the claims exercise (`None`, strings,
integers). -/
inductive PyVal where
  | vnone
  | vstr (s : String)
  | vint (n : Int)
  deriving DecidableEq, Repr

/-- Python truthiness of a `PyVal` (`None`, `""` and `0` are falsy). -/
def PyVal.truthy : PyVal → Bool
  | .vnone => false
  | .vstr s => !(s = "")
  | .vint n => !(n = 0)

/-- Python `str()` of a `PyVal` (f-string rendering). -/
def PyVal.toStr : PyVal → String
  | .vnone => "None"
  | .vstr s => s
  | .vint n => toString n

/-- The `reports` mapping of the alternate variant
(`dict[str, Literal[True] | FailureData]`); its entries are never
populated by the code under test, only threaded through. -/
abbrev ReportsMap := List (String × Option FailureData)

/-- Embedding of the alternate `Reporter` variant's state: `name` is
`str(name) if name else None`, so it is `None` for any falsy argument. -/
structure RepV where
  name : Option String
  reports : ReportsMap
  deriving DecidableEq, Repr

/-- Embedding of the alternate `Reporter.__init__`: stores
`str(name) if name else None` and `reports or dict()` (a falsy — `None`
or empty — `reports` argument is replaced by a fresh empty dict). -/
def initV (name : PyVal) (reports : Option ReportsMap) : RepV :=
  { name := if name.truthy then some name.toStr else none
    reports :=
      match reports with
      | some d => if d = [] then [] else d
      | none => [] }

/-- Result of `Reporter.__call__`: either the same instance (possibly
renamed in place) or a freshly constructed child. -/
inductive CallResult where
  | same (r : RepV)
  | child (r : RepV)
  deriving DecidableEq, Repr

/-- Embedding of the alternate `Reporter.__call__`: `None` returns `self`
unchanged; if `self.name` is `None` the call sets `self.name = str(name)`
in place and returns `self`; otherwise it constructs
`Reporter(f'{self.name}.{name}', self.reports)`. -/
def RepV.call (r : RepV) (name : PyVal) : CallResult :=
  match name with
  | .vnone => .same r
  | n =>
    match r.name with
    | none => .same { r with name := some n.toStr }
    | some selfName =>
      .child (initV (.vstr (selfName ++ "." ++ n.toStr)) (some r.reports))

/-- Python `logging` levels used by `FailureLogger` (`DEBUG = 10`,
`WARNING = 30`, `ERROR = 40`). -/
def logDEBUG : Nat := 10

/-- WARNING level. -/
def logWARNING : Nat := 30

/-- ERROR level. -/
def logERROR : Nat := 40

/-- Output sink of a logging handler. -/
inductive Sink where
  | console
  | file
  deriving DecidableEq, Repr

/-- A configured `logging.Handler`: its threshold level, sink, and whether
it applies the configured formatter (Python's last-resort stderr handler
does not). -/
structure LogHandler where
  level : Nat
  sink : Sink
  formats : Bool
  deriving DecidableEq, Repr

/-- State of a `FailureLogger`: the handlers attached to its logger. -/
structure FailureLoggerSt where
  handlers : List LogHandler
  deriving DecidableEq, Repr

/-- Embedding of `FailureLogger.__init__`: a console `StreamHandler`
(level DEBUG, formatted) is created and configured but `addHandler` is
never called on it, so it is dropped; only the file handler (level
WARNING, formatted) is attached, and only when a file destination is
given. The logger's own level is DEBUG, below every level we emit at. -/
def mkFailureLogger (file : Option String) : FailureLoggerSt :=
  let _streamHandlerUnattached : LogHandler :=
    { level := logDEBUG, sink := .console, formats := true }
  match file with
  | some _ => { handlers := [{ level := logWARNING, sink := .file, formats := true }] }
  | none => { handlers := [] }

/-- One line written by a logging call: the sink it went to, whether the
configured formatter was applied, and the record's level. -/
structure LogEvent where
  sink : Sink
  formatted : Bool
  level : Nat
  deriving DecidableEq, Repr

/-- Embedding of `Logger.log` dispatch for this logger: every attached
handler whose threshold is at most the record level writes a formatted
line to its sink; when no handler is attached anywhere, Python's
last-resort handler writes an unformatted line to the console for records
at WARNING and above. -/
def loggerEmit (st : FailureLoggerSt) (lvl : Nat) : List LogEvent :=
  if st.handlers = [] then
    if logWARNING ≤ lvl then [{ sink := .console, formatted := false, level := lvl }]
    else []
  else
    st.handlers.filterMap fun h =>
      if h.level ≤ lvl then some { sink := h.sink, formatted := h.formats, level := lvl }
      else none

/-- Embedding of `FailureLogger.__call__`: logs the failure's description
at ERROR when `failure.severity is REQUIRED` and at WARNING otherwise. -/
def callFailureLogger (st : FailureLoggerSt) (fd : FailureData) : List LogEvent :=
  loggerEmit st (if fd.severity = some .REQUIRED then logERROR else logWARNING)

/-!
Heap-indirected view of `_Reporter`, used to settle the snapshot claim:
Python dicts are mutable heap objects, so each reporter's local `_details`
lives in a heap cell and `report` materialises the merged details as a
freshly allocated dict. The cells hold `Dict` values; `Heap` indexes them
by allocation order.
-/

/-- The heap of live dict objects, addressed by index. -/
abbrev Heap := List Dict

/-- Heap-indirected `_Reporter`: as `RepC`, but the local `_details` dict
is a reference (`dref`) into the heap. -/
inductive HRep where
  | root (name : Option String) (sev : Option Severity) (dref : Nat)
      (handler : Option Unit)
  | child (name : Option String) (sev : Option Severity) (dref : Nat)
      (handler : Option Unit) (parent : HRep)
  deriving DecidableEq, Repr

/-- Local `_severity` of a heap-indirected reporter. -/
def HRep.localSev : HRep → Option Severity
  | .root _ s _ _ => s
  | .child _ s _ _ _ => s

/-- Local `_handler` of a heap-indirected reporter. -/
def HRep.localHandler : HRep → Option Unit
  | .root _ _ _ h => h
  | .child _ _ _ h _ => h

/-- The `name` property on the heap-indirected view (names are immutable
strings, no heap involved). -/
def HRep.resolvedName : HRep → Option String
  | .root n _ _ _ => n
  | .child n _ _ _ p =>
    match p.resolvedName with
    | some rn => if rn = "" then n else some (rn ++ "." ++ fmtOptStr n)
    | none => n

/-- The `severity` property on the heap-indirected view. -/
def HRep.resolvedSeverity : HRep → Option Severity
  | .root _ s _ _ => s
  | .child _ s _ _ p =>
    match s with
    | some s₂ => some s₂
    | none => p.resolvedSeverity

/-- The `details` property on the heap-indirected view: reads each local
dict out of the heap; `{**root.details, **self._details}` and the leaf
`.copy()` both build fresh dict values, so the result is a value, not a
reference. -/
def HRep.resolvedDetails (hp : Heap) : HRep → Dict
  | .root _ _ dr _ => hp.getD dr []
  | .child _ _ dr _ p => pyMerge (p.resolvedDetails hp) (hp.getD dr [])

/-- The `_details` references of a reporter and all its ancestors. -/
def HRep.chainRefs : HRep → List Nat
  | .root _ _ dr _ => [dr]
  | .child _ _ dr _ p => dr :: p.chainRefs

/-- `FailureData` in the heap-indirected view: the details it carries are
the freshly built dict `report` allocated, referenced by `detailsRef`. -/
structure HFailureData where
  source : Option String
  description : String
  datetime : Nat
  severity : Option Severity
  detailsRef : Nat
  deriving DecidableEq, Repr

/-- `_Reporter.report` on the heap-indirected view: same control flow as
`RepC.report`; on dispatch the merged details (a fresh dict value) are
allocated as a new heap cell and the `FailureData` references that cell. -/
def HRep.report (hp : Heap) (r : HRep) (arg : ReportArg) (cs : Dict)
    (now : Nat) : Heap × Option HFailureData :=
  let severity := r.resolvedSeverity
  let handler := r.localHandler
  if severity = some .OPTIONAL ∨ handler = none then (hp, none)
  else
    let descAndDetails :=
      match arg with
      | .exc (.failure d fdet) =>
        (d, pyMerge (pyMerge (r.resolvedDetails hp) cs) fdet)
      | .exc (.generic tn msg) =>
        (msg, pyMerge (pyMerge (r.resolvedDetails hp) cs)
          [("error_type", Val.vstr (pascalToSnake tn))])
      | .str s => (s, pyMerge (r.resolvedDetails hp) cs)
    (hp ++ [descAndDetails.2],
      some
        { source := r.resolvedName
          description := descAndDetails.1
          datetime := now
          severity := severity
          detailsRef := hp.length })

/-- In-place mutation `reporter._details[k] = v` of the dict object at
heap address `ref`. -/
def mutateLocal (hp : Heap) (ref : Nat) (k : String) (v : Val) : Heap :=
  hp.set ref (dset (hp.getD ref []) k v)

/-!
Helper definitions and lemmas shared by the claim theorems.
-/

/-- Description selected by `report` for each argument form. -/
def reportDesc : ReportArg → String
  | .exc e => e.describe
  | .str s => s

/-- Details built by `report` for each argument form. -/
def reportDetails (r : RepC) (arg : ReportArg) (cs : Dict) : Dict :=
  match arg with
  | .exc (.failure _ fdet) => pyMerge (pyMerge r.resolvedDetails cs) fdet
  | .exc (.generic tn _) =>
    pyMerge (pyMerge r.resolvedDetails cs)
      [("error_type", Val.vstr (pascalToSnake tn))]
  | .str _ => pyMerge r.resolvedDetails cs

theorem report_eq_of_active (r : RepC) (arg : ReportArg) (cs : Dict)
    (now : Nat) (h₁ : r.localHandler ≠ none)
    (h₂ : r.resolvedSeverity ≠ some .OPTIONAL) :
    r.report arg cs now = some
      { source := r.resolvedName
        description := reportDesc arg
        datetime := now
        severity := r.resolvedSeverity
        details := reportDetails r arg cs } := by
  unfold RepC.report
  rw [if_neg (by simp [h₁, h₂])]
  cases arg with
  | exc e => cases e <;> rfl
  | str s => rfl

theorem report_eq_none_of_silent (r : RepC) (arg : ReportArg) (cs : Dict)
    (now : Nat)
    (h : r.resolvedSeverity = some .OPTIONAL ∨ r.localHandler = none) :
    r.report arg cs now = none := by
  unfold RepC.report
  rw [if_pos h]

/-- A reporter with no `_severity` set anywhere in the chain. -/
def RepC.noSevAnywhere : RepC → Bool
  | .root _ s _ _ => s.isNone
  | .child _ s _ _ p => s.isNone && p.noSevAnywhere

theorem resolvedSeverity_eq_none_of_noSev (r : RepC)
    (h : r.noSevAnywhere = true) : r.resolvedSeverity = none := by
  induction r with
  | root n s d hh =>
    simp [RepC.noSevAnywhere, Option.isNone_iff_eq_none] at h
    simp [RepC.resolvedSeverity, h]
  | child n s d hh p ih =>
    simp [RepC.noSevAnywhere, Option.isNone_iff_eq_none] at h
    simp [RepC.resolvedSeverity, h.1, ih h.2]

/-!
Claim theorems.
-/

/-- Sample reporter whose resolved severity is NORMAL, with a handler. -/
def sampleReporterNormal : RepC := .root (some "app") (some .NORMAL) [] (some ())

/-- C1: the claim says an explicit `severity=REQUIRED` at the call site of
`report` on a reporter resolving to NORMAL dispatches with REQUIRED. The
runtime signature `report(self, arg, **details)` has no severity
parameter, so the keyword lands in the details dict and the dispatched
`FailureData` carries the resolved severity NORMAL — evaluated here at the
failing input. -/
theorem claim_C1_override_ignored :
    (sampleReporterNormal.report (.str "boom")
      [("severity", .vsev .REQUIRED)] 0).map FailureData.severity =
      some (some .NORMAL) ∧
    ((sampleReporterNormal.report (.str "boom")
      [("severity", .vsev .REQUIRED)] 0).map fun fd =>
        dget fd.details "severity") =
      some (some (.vsev .REQUIRED)) ∧
    some (some Severity.NORMAL) ≠
      some (some Severity.REQUIRED) := by decide

/-- A NORMAL-severity `FailureData` as handed to the default handler. -/
def fdNormal : FailureData :=
  { source := some "app", description := "warn", datetime := 0
    severity := some .NORMAL, details := [] }

/-- A REQUIRED-severity `FailureData` as handed to the default handler. -/
def fdRequired : FailureData :=
  { source := some "app", description := "stop", datetime := 0
    severity := some .REQUIRED, details := [] }

/-- C3: the claim says the default handler always writes a formatted line
to a console stream. `FailureLogger.__init__` configures a console
`StreamHandler` but never attaches it, so with a file destination the only
output is the file line (no console event at all), and without one the
only console output is Python's unformatted last-resort line. The
severity-to-level mapping (REQUIRED to ERROR, others to WARNING) and the
WARNING-threshold file sink are as claimed — evaluated here at the failing
inputs. -/
theorem claim_C3_console_line_missing :
    callFailureLogger (mkFailureLogger (some "log.txt")) fdNormal =
      [{ sink := .file, formatted := true, level := logWARNING }] ∧
    callFailureLogger (mkFailureLogger (some "log.txt")) fdRequired =
      [{ sink := .file, formatted := true, level := logERROR }] ∧
    callFailureLogger (mkFailureLogger none) fdRequired =
      [{ sink := .console, formatted := false, level := logERROR }] ∧
    callFailureLogger (mkFailureLogger none) fdNormal =
      [{ sink := .console, formatted := false, level := logWARNING }] := by
  decide

/-- Root reporter with no severity set, with a handler. -/
def rootNoSeverity : RepC := .root (some "r") none [] (some ())

/-- C2 counterexample: on a root reporter with no severity set anywhere,
the `severity` property resolves to `None` (not NORMAL) and the dispatched
`FailureData` carries an absent severity — refuting the claim that the
severity used at dispatch defaults to NORMAL and is never absent. -/
theorem claim_C2_cex_no_default :
    (rootNoSeverity.report (.str "x") [] 0).map FailureData.severity =
      some none ∧
    rootNoSeverity.resolvedSeverity ≠ some .NORMAL ∧
    rootNoSeverity.noSevAnywhere = true := by decide

/-- C2 (amended): resolved severity is the local severity if set,
otherwise the parent's resolved severity; but when no severity is set
anywhere in the chain, resolution yields `None` — not the NORMAL default —
and a dispatched `FailureData` carries that absent severity. -/
theorem claim_C2_severity_resolution (n : Option String) (s : Severity)
    (so : Option Severity) (d cs : Dict) (hh : Option Unit) (p r : RepC)
    (arg : ReportArg) (now : Nat) (fd : FailureData)
    (h₁ : r.noSevAnywhere = true)
    (h₂ : r.report arg cs now = some fd) :
    (RepC.child n (some s) d hh p).resolvedSeverity = some s ∧
    (RepC.child n none d hh p).resolvedSeverity = p.resolvedSeverity ∧
    (RepC.root n so d hh).resolvedSeverity = so ∧
    r.resolvedSeverity = none ∧
    fd.severity = none := by
  refine ⟨rfl, rfl, rfl, resolvedSeverity_eq_none_of_noSev r h₁, ?_⟩
  have hs := resolvedSeverity_eq_none_of_noSev r h₁
  by_cases hh₂ : r.localHandler = none
  · rw [report_eq_none_of_silent r arg cs now (Or.inr hh₂)] at h₂
    exact absurd h₂ (by simp)
  · rw [report_eq_of_active r arg cs now hh₂ (by simp [hs])] at h₂
    have := (Option.some.injEq _ _).mp h₂
    rw [← this, hs]

/-- Witness for the amended C2 theorem at a concrete reporter. -/
theorem claim_C2_severity_resolution_witness :
    (RepC.child (some "c") (some .REQUIRED) [] (some ())
      rootNoSeverity).resolvedSeverity = some .REQUIRED ∧
    (RepC.child (some "c") none [] (some ())
      rootNoSeverity).resolvedSeverity = rootNoSeverity.resolvedSeverity ∧
    (RepC.root (some "r") none [] (some ())).resolvedSeverity = none ∧
    rootNoSeverity.resolvedSeverity = none ∧
    ({ source := some "r", description := "x", datetime := 0
       severity := none, details := [] } : FailureData).severity = none :=
  claim_C2_severity_resolution (some "c") .REQUIRED none [] []
    (some ()) rootNoSeverity rootNoSeverity (.str "x") 0
    { source := some "r", description := "x", datetime := 0
      severity := none, details := [] }
    (by decide) (by decide)

/-- C4: scoped capture (`__exit__`) on an ordinary exception suppresses it
(returns `True`), makes exactly one `report` call carrying the exception
and no keyword arguments (hence no severity override), and — when the
reporter is not on the silent path — dispatches exactly one `FailureData`
carrying the fault's description and the reporter's resolved severity; a
non-`Exception` `BaseException` propagates (returns `False`) with no
report call and no dispatch. -/
theorem claim_C4_scoped_capture (r : RepC) (ex : Exc) (nm : String)
    (now : Nat) (h₁ : r.localHandler ≠ none)
    (h₂ : r.resolvedSeverity ≠ some .OPTIONAL) :
    (r.exitScope (some (.exc ex)) now).1 = true ∧
    (r.exitScope (some (.exc ex)) now).2.1 = [(.exc ex, [])] ∧
    ((r.exitScope (some (.exc ex)) now).2.2.map FailureData.description) =
      [ex.describe] ∧
    ((r.exitScope (some (.exc ex)) now).2.2.map FailureData.severity) =
      [r.resolvedSeverity] ∧
    r.exitScope none now = (true, [], []) ∧
    r.exitScope (some (.interrupt nm)) now = (false, [], []) := by
  refine ⟨rfl, rfl, ?_, ?_, rfl, rfl⟩ <;>
    simp [RepC.exitScope, report_eq_of_active r (.exc ex) [] now h₁ h₂,
      reportDesc]

/-- Witness for the C4 theorem at a concrete reporter and exception. -/
theorem claim_C4_scoped_capture_witness :
    (sampleReporterNormal.exitScope
      (some (.exc (.generic "ValueError" "bad"))) 0).1 = true ∧
    (sampleReporterNormal.exitScope
      (some (.exc (.generic "ValueError" "bad"))) 0).2.1 =
      [(.exc (.generic "ValueError" "bad"), [])] ∧
    ((sampleReporterNormal.exitScope
      (some (.exc (.generic "ValueError" "bad"))) 0).2.2.map
        FailureData.description) = [(Exc.generic "ValueError" "bad").describe] ∧
    ((sampleReporterNormal.exitScope
      (some (.exc (.generic "ValueError" "bad"))) 0).2.2.map
        FailureData.severity) = [sampleReporterNormal.resolvedSeverity] ∧
    sampleReporterNormal.exitScope none 0 = (true, [], []) ∧
    sampleReporterNormal.exitScope (some (.interrupt "KeyboardInterrupt")) 0 =
      (false, [], []) :=
  claim_C4_scoped_capture sampleReporterNormal
    (.generic "ValueError" "bad") "KeyboardInterrupt" 0
    (by decide) (by decide)

/-- Rendering of the spec's notion for C5, for comparison with the code:
a handler is "resolvable from the Reporter's ancestor chain" when the
reporter itself or any ancestor has one set. -/
def specHandlerResolvable : RepC → Bool
  | .root _ _ _ h => h.isSome
  | .child _ _ _ h p => h.isSome || specHandlerResolvable p

/-- Parent with a handler, for the C5 counterexample. -/
def parentWithHandler : RepC := .root (some "p") (some .NORMAL) [] (some ())

/-- Child with no local handler under `parentWithHandler`. -/
def childNoHandler : RepC := .child (some "c") none [] none parentWithHandler

/-- C5 counterexample: a child with no local handler whose parent has one
— a handler is resolvable from the ancestor chain and the resolved
severity is NORMAL, yet `report` is a no-op, because the code tests only
the local `self._handler`. This refutes the claimed
"no-op exactly when severity is OPTIONAL or no handler is resolvable from
the ancestor chain". -/
theorem claim_C5_cex_ancestor_handler :
    childNoHandler.report (.str "x") [] 0 = none ∧
    childNoHandler.resolvedSeverity = some .NORMAL ∧
    specHandlerResolvable childNoHandler = true := by decide

/-- C5 (amended): `report` is a no-op exactly when the resolved severity
is OPTIONAL or the reporter's own local handler is unset; the handler is
not resolved through the ancestor chain. -/
theorem claim_C5_silent_iff (r : RepC) (arg : ReportArg) (cs : Dict)
    (now : Nat) :
    r.report arg cs now = none ↔
      (r.resolvedSeverity = some .OPTIONAL ∨ r.localHandler = none) := by
  constructor
  · intro h
    by_contra hc
    push_neg at hc
    rw [report_eq_of_active r arg cs now hc.2 hc.1] at h
    exact absurd h (by simp)
  · exact report_eq_none_of_silent r arg cs now

theorem dotted_ne_empty (a b : String) : a ++ "." ++ b ≠ "" := by
  intro h
  have hd : (a ++ "." ++ b).data = ("" : String).data := congrArg String.data h
  simp [String.data_append] at hd

/-- C6: deriving with name `"b"` from a reporter named `"a"` yields a
fresh child named `"a.b"` sharing the parent's reports; deriving with an
absent name (`None`) returns the identical instance unchanged; and
deriving with a name from a reporter whose own name is unset renames that
instance in place and returns it. -/
theorem claim_C6_derivation (r r₂ : RepV) (a b : String) (n : PyVal)
    (h₁ : r.name = some a) (h₂ : n ≠ .vnone) (h₃ : r₂.name = none) :
    r.call (.vstr b) =
      .child { name := some (a ++ "." ++ b), reports := r.reports } ∧
    r.call .vnone = .same r ∧
    r₂.call n = .same { r₂ with name := some n.toStr } := by
  refine ⟨?_, rfl, ?_⟩
  · cases r with
    | mk nm reports =>
      simp only at h₁
      subst h₁
      simp only [RepV.call, PyVal.toStr, initV, PyVal.truthy,
        dotted_ne_empty a b, decide_eq_true_eq]
      cases hrep : reports with
      | nil => simp
      | cons x xs => simp
  · cases n with
    | vnone => exact absurd rfl h₂
    | vstr s => simp [RepV.call, h₃]
    | vint m => simp [RepV.call, h₃]

/-- Witness for the C6 theorem at concrete reporters. -/
theorem claim_C6_derivation_witness :
    (RepV.mk (some "a") []).call (.vstr "b") =
      .child { name := some ("a" ++ "." ++ "b"), reports := [] } ∧
    (RepV.mk (some "a") []).call .vnone = .same (RepV.mk (some "a") []) ∧
    (RepV.mk none []).call (.vstr "b") =
      .same { RepV.mk none [] with name := some (PyVal.vstr "b").toStr } :=
  claim_C6_derivation (RepV.mk (some "a") []) (RepV.mk none [])
    "a" "b" (.vstr "b") rfl (by decide) rfl

/-- C7: for a reporter with a parent, resolved details are the parent's
resolved details overlaid by the local details — the local value shadows
the ancestor's on a shared key, and ancestor keys not overridden locally
stay visible. -/
theorem claim_C7_details_overlay (n : Option String) (so : Option Severity)
    (d : Dict) (hh : Option Unit) (p : RepC) (k : String) (v : Val) :
    dget (RepC.child n so d hh p).resolvedDetails k =
      ((dget d k).orElse fun _ => dget p.resolvedDetails k) ∧
    (dget d k = some v →
      dget (RepC.child n so d hh p).resolvedDetails k = some v) ∧
    (dget d k = none →
      dget (RepC.child n so d hh p).resolvedDetails k =
        dget p.resolvedDetails k) := by
  refine ⟨dget_pyMerge p.resolvedDetails d k, ?_, ?_⟩ <;>
    intro h <;>
    simp [RepC.resolvedDetails, dget_pyMerge, h, Option.orElse]

/-- Witness for the C7 theorem at a concrete child reporter. -/
theorem claim_C7_details_overlay_witness :
    dget (RepC.child (some "c") none [("k", .vstr "child")] none
      (RepC.root (some "p") (some .NORMAL)
        [("k", .vstr "parent"), ("other", .vint 1)]
        (some ()))).resolvedDetails "k" =
      ((dget [("k", .vstr "child")] "k").orElse fun _ =>
        dget (RepC.root (some "p") (some .NORMAL)
          [("k", .vstr "parent"), ("other", .vint 1)]
          (some ())).resolvedDetails "k") ∧
    (dget [("k", .vstr "child")] "k" = some (.vstr "child") →
      dget (RepC.child (some "c") none [("k", .vstr "child")] none
        (RepC.root (some "p") (some .NORMAL)
          [("k", .vstr "parent"), ("other", .vint 1)]
          (some ()))).resolvedDetails "k" = some (.vstr "child")) ∧
    (dget [("k", .vstr "child")] "k" = none →
      dget (RepC.child (some "c") none [("k", .vstr "child")] none
        (RepC.root (some "p") (some .NORMAL)
          [("k", .vstr "parent"), ("other", .vint 1)]
          (some ()))).resolvedDetails "k" =
        dget (RepC.root (some "p") (some .NORMAL)
          [("k", .vstr "parent"), ("other", .vint 1)]
          (some ())).resolvedDetails "k") :=
  claim_C7_details_overlay (some "c") none [("k", .vstr "child")] none
    (RepC.root (some "p") (some .NORMAL)
      [("k", .vstr "parent"), ("other", .vint 1)] (some ()))
    "k" (.vstr "child")

/-- C8: on an active dispatch, a `Failure` argument contributes its
description and its details win over call-site details, which win over
resolved ancestor details; a generic exception contributes its string
form and a synthesized `error_type` key naming its kind (call-site over
ancestor for other keys); a plain string contributes itself, with
call-site details over ancestor details. -/
theorem claim_C8_dispatch_contents (r : RepC) (cs fdet : Dict)
    (desc tn msg s k : String) (now : Nat)
    (h₁ : r.localHandler ≠ none)
    (h₂ : r.resolvedSeverity ≠ some .OPTIONAL) :
    (r.report (.exc (.failure desc fdet)) cs now).map
      FailureData.description = some desc ∧
    ((r.report (.exc (.failure desc fdet)) cs now).map fun fd =>
      dget fd.details k) =
      some ((dget fdet k).orElse fun _ =>
        (dget cs k).orElse fun _ => dget r.resolvedDetails k) ∧
    (r.report (.exc (.generic tn msg)) cs now).map
      FailureData.description = some msg ∧
    ((r.report (.exc (.generic tn msg)) cs now).map fun fd =>
      dget fd.details "error_type") =
      some (some (.vstr (pascalToSnake tn))) ∧
    (k ≠ "error_type" →
      ((r.report (.exc (.generic tn msg)) cs now).map fun fd =>
        dget fd.details k) =
        some ((dget cs k).orElse fun _ => dget r.resolvedDetails k)) ∧
    (r.report (.str s) cs now).map FailureData.description = some s ∧
    ((r.report (.str s) cs now).map fun fd => dget fd.details k) =
      some ((dget cs k).orElse fun _ => dget r.resolvedDetails k) := by
  rw [report_eq_of_active r (.exc (.failure desc fdet)) cs now h₁ h₂,
    report_eq_of_active r (.exc (.generic tn msg)) cs now h₁ h₂,
    report_eq_of_active r (.str s) cs now h₁ h₂]
  refine ⟨rfl, ?_, rfl, ?_, ?_, rfl, ?_⟩
  · simp [reportDetails, dget_pyMerge]
  · simp [reportDetails, dget_pyMerge, dget, Option.orElse]
  · intro hk
    simp [reportDetails, dget_pyMerge, dget, Ne.symm hk, Option.orElse]
  · simp [reportDetails, dget_pyMerge]

/-- Witness for the C8 theorem at a concrete reporter and inputs. -/
theorem claim_C8_dispatch_contents_witness :
    (sampleReporterNormal.report
      (.exc (.failure "bad" [("f", .vint 2)])) [("g", .vint 3)] 0).map
        FailureData.description = some "bad" ∧
    ((sampleReporterNormal.report
      (.exc (.failure "bad" [("f", .vint 2)])) [("g", .vint 3)] 0).map
        fun fd => dget fd.details "f") =
      some ((dget [("f", .vint 2)] "f").orElse fun _ =>
        (dget [("g", .vint 3)] "f").orElse fun _ =>
          dget sampleReporterNormal.resolvedDetails "f") ∧
    (sampleReporterNormal.report
      (.exc (.generic "ValueError" "oops")) [("g", .vint 3)] 0).map
        FailureData.description = some "oops" ∧
    ((sampleReporterNormal.report
      (.exc (.generic "ValueError" "oops")) [("g", .vint 3)] 0).map
        fun fd => dget fd.details "error_type") =
      some (some (.vstr (pascalToSnake "ValueError"))) ∧
    ("f" ≠ "error_type" →
      ((sampleReporterNormal.report
        (.exc (.generic "ValueError" "oops")) [("g", .vint 3)] 0).map
          fun fd => dget fd.details "f") =
        some ((dget [("g", .vint 3)] "f").orElse fun _ =>
          dget sampleReporterNormal.resolvedDetails "f")) ∧
    (sampleReporterNormal.report (.str "plain") [("g", .vint 3)] 0).map
      FailureData.description = some "plain" ∧
    ((sampleReporterNormal.report (.str "plain") [("g", .vint 3)] 0).map
      fun fd => dget fd.details "f") =
      some ((dget [("g", .vint 3)] "f").orElse fun _ =>
        dget sampleReporterNormal.resolvedDetails "f") :=
  claim_C8_dispatch_contents sampleReporterNormal [("g", .vint 3)]
    [("f", .vint 2)] "bad" "ValueError" "oops" "plain" "f" 0
    (by decide) (by decide)

/-- C10: constructing the alternate `Reporter` with any falsy name stores
`None`; the first derivation with a non-absent name then renames that same
instance in place — its name becomes exactly the new name, carrying no
trace of the falsy root name. -/
theorem claim_C10_falsy_root_name (v n : PyVal) (h₁ : v.truthy = false)
    (h₂ : n ≠ .vnone) :
    (initV v none).name = none ∧
    (initV v none).call n = .same { name := some n.toStr, reports := [] } := by
  have hname : (initV v none).name = none := by
    simp [initV, h₁]
  refine ⟨hname, ?_⟩
  cases n with
  | vnone => exact absurd rfl h₂
  | vstr s =>
    show (initV v none).call (.vstr s) = _
    simp [RepV.call, initV, h₁]
  | vint m =>
    show (initV v none).call (.vint m) = _
    simp [RepV.call, initV, h₁]

/-- Witness for the C10 theorem at the concrete falsy names. -/
theorem claim_C10_falsy_root_name_witness :
    (initV (.vint 0) none).name = none ∧
    (initV (.vint 0) none).call (.vstr "step") =
      .same { name := some (PyVal.vstr "step").toStr, reports := [] } :=
  claim_C10_falsy_root_name (.vint 0) (.vstr "step") (by decide) (by decide)

theorem getD_set_ne (l : Heap) (i j : Nat) (a : Dict) (hij : i ≠ j) :
    (l.set i a).getD j [] = l.getD j [] := by
  induction l generalizing i j with
  | nil => simp [List.set]
  | cons x xs ih =>
    cases i with
    | zero =>
      cases j with
      | zero => exact absurd rfl hij
      | succ j₂ => simp [List.set]
    | succ i₂ =>
      cases j with
      | zero => simp [List.set]
      | succ j₂ =>
        simp only [List.set, List.getD_cons_succ]
        exact ih i₂ j₂ fun h => hij (by rw [h])

/-- C9: a dispatch allocates exactly one fresh dict cell for the
`FailureData`'s merged details, the `FailureData` references that fresh
cell, and a later in-place mutation of any reporter's local details dict
(its own or an ancestor's) leaves the dispatched snapshot unchanged. -/
theorem claim_C9_snapshot (hp hp₂ : Heap) (r : HRep) (arg : ReportArg)
    (cs : Dict) (now : Nat) (k : String) (v : Val) (ref : Nat)
    (d : HFailureData)
    (hvalid : ∀ i ∈ r.chainRefs, i < hp.length)
    (hrep : HRep.report hp r arg cs now = (hp₂, some d))
    (href : ref ∈ r.chainRefs) :
    hp₂.length = hp.length + 1 ∧
    d.detailsRef = hp.length ∧
    (mutateLocal hp₂ ref k v).getD d.detailsRef [] =
      hp₂.getD d.detailsRef [] := by
  simp only [HRep.report] at hrep
  split at hrep
  · exact absurd (congrArg Prod.snd hrep) (by simp)
  · rw [Prod.mk.injEq] at hrep
    obtain ⟨hfst, hsnd⟩ := hrep
    have hd := (Option.some.injEq _ _).mp hsnd
    subst hfst
    refine ⟨by simp, by rw [← hd], ?_⟩
    rw [← hd]
    exact getD_set_ne _ ref hp.length _
      (Nat.ne_of_lt (hvalid ref href))

/-- Witness for the C9 theorem at a concrete heap and reporter. -/
theorem claim_C9_snapshot_witness :
    ([[("a", Val.vstr "1")], [("a", Val.vstr "1")]] : Heap).length =
      ([[("a", Val.vstr "1")]] : Heap).length + 1 ∧
    (HFailureData.mk (some "r") "x" 0 (some .NORMAL) 1).detailsRef =
      ([[("a", Val.vstr "1")]] : Heap).length ∧
    (mutateLocal [[("a", Val.vstr "1")], [("a", Val.vstr "1")]] 0 "a"
      (.vstr "2")).getD
        (HFailureData.mk (some "r") "x" 0 (some .NORMAL) 1).detailsRef [] =
      ([[("a", Val.vstr "1")], [("a", Val.vstr "1")]] : Heap).getD
        (HFailureData.mk (some "r") "x" 0 (some .NORMAL) 1).detailsRef [] :=
  claim_C9_snapshot [[("a", .vstr "1")]]
    [[("a", .vstr "1")], [("a", .vstr "1")]]
    (.root (some "r") (some .NORMAL) 0 (some ())) (.str "x") [] 0 "a"
    (.vstr "2") 0 (HFailureData.mk (some "r") "x" 0 (some .NORMAL) 1)
    (by decide) (by decide) (by decide)

end FastChain
